import Mathlib

/-!
Verification development for nasa-apod-desktop (src/nasa_apod_desktop.py).

The Python source is shallowly embedded below.  Pure computations are
translated directly; the stateful parts (network access, the filesystem)
are made explicit: network responses, file existence and content lengths
enter as parameters, and the observable side effects (opening a remote
URL, retrieving a remote file to disk) are recorded in an event trace.
Library calls (urllib, pathlib, PIL, lxml) are modelled by their
documented contracts.
-/

/- ## Configuration constants (defaults from apod.config handling, lines 88-103) -/

/-- Default NASA_APOD_SITE value (line 95-96). -/
def NASA_APOD_SITE : String := "http:" ++ "//apod.nasa.gov/apod/"

/- ## Resolution detector, largest mode (find_resolution, lines 146-156)

The regex ` connected ([0-9]+)x([0-9]+)+` yields the "connected WxH"
entries in scan order; the loop body is embedded verbatim: `largest`
is initialised to 0 and - exactly as in the source - never reassigned
inside the loop, so the comparison is always against 0. -/

/-- Embeds the for-loop of find_resolution in largest mode (lines 151-154):
`largest` starts at 0 and is never updated; an entry replaces the
accumulator whenever its area exceeds `largest`. -/
def largestScan : List (Nat × Nat) → Nat → Nat × Nat → Nat × Nat
  | [], _, acc => acc
  | (w, h) :: rest, largest, acc =>
    if w * h > largest then largestScan rest largest (w, h)
    else largestScan rest largest acc

/-- Embeds find_resolution (largest mode, xrandr): scan the connected
entries; if the result is still (0, 0)-ish (`not all((res_x, res_y))`,
line 184) fall back to the configured default pair (lines 184-185). -/
def find_resolution_largest (ms : List (Nat × Nat)) (dflt : Nat × Nat) : Nat × Nat :=
  let r := largestScan ms 0 (0, 0)
  if r.1 = 0 ∨ r.2 = 0 then dflt else r

/-- Modelled from the spec: "keep the entry with greatest area
(width×height), tie-break: first occurrence wins (stable scan)".
Written from the spec words, to be compared with
`find_resolution_largest` which embeds the source. -/
def spec_largest_choice : List (Nat × Nat) → Option (Nat × Nat)
  | [] => none
  | m :: ms =>
    some (ms.foldl (fun best c => if c.1 * c.2 > best.1 * best.2 then c else best) m)

/- ## Site fetcher (download_site, lines 221-234) -/

/-- Outcome of the underlying HTTP GET: the page bytes, or an
urllib.error.HTTPError carrying a status code. -/
inductive FetchResult where
  | success (html : String)
  | httpError (code : Nat)
deriving DecidableEq, Repr

/-- The value download_site returns: the response bytes on success, or
the Python str built in the except branch.  Bytes and str are distinct
Python types; equality between them is always False. -/
inductive Reply where
  | bytes (s : String)
  | str (s : String)
deriving DecidableEq, Repr

/-- Embeds download_site (lines 221-234): on success return the body
bytes, on HTTPError return the string `Error: ` followed by the code
(line 233). -/
def download_site : FetchResult → Reply
  | .success html => .bytes html
  | .httpError code => .str ("Error: " ++ toString code)

/-- The caller's error check `site_contents == 'error'` (line 484, and
line 373 in the seed loop).  In Python 3 a bytes value never equals a
str, so only the exact str "error" passes. -/
def isAbortMarker (r : Reply) : Bool := r = Reply.str "error"

/-- The text get_image works on: get_image_info decodes bytes to str
(lines 439-440); an error reply is already a str. -/
def replyText : Reply → String
  | .bytes s => s
  | .str s => s

/- ## Regex search used by get_image_info (lines 435-453)

The pattern is `<` + element + `='(image.*?)'` with re.IGNORECASE.
re.search semantics: leftmost starting position at which the whole
pattern matches; the lazy group captures up to the first closing quote;
`.` does not match a newline. -/

/-- The single-quote character, written by code point. -/
def quoteChar : Char := Char.ofNat 39

/-- The newline character, which `.` in the regex never matches. -/
def newlineChar : Char := Char.ofNat 10

/-- Case-insensitive prefix test, modelling re.IGNORECASE literal
matching. -/
def startsWithCI : List Char → List Char → Bool
  | [], _ => true
  | _ :: _, [] => false
  | p :: ps, t :: ts => p.toLower = t.toLower && startsWithCI ps ts

/-- Scans for the closing quote of the lazy group `.*?'`: returns the
characters before the first quote, failing at a newline or end of
input (where `.` cannot match). -/
def scanCapture : List Char → Option (List Char)
  | [] => none
  | c :: cs =>
    if c = quoteChar then some []
    else if c = newlineChar then none
    else (scanCapture cs).map (fun tail => c :: tail)

/-- The literal part of the pattern for a given element: `<` + element
+ `='` (line 437). -/
def litFor (elem : String) : List Char := ("<" ++ elem ++ "=").data ++ [quoteChar]

/-- Tries the whole pattern at one starting position: the literal, then
the literal `image` opening the group, then the lazy tail up to a
quote.  Returns the captured group text. -/
def tryAt (lit : List Char) (t : List Char) : Option (List Char) :=
  if startsWithCI lit t then
    let rest := t.drop lit.length
    if startsWithCI "image".data rest then
      match scanCapture (rest.drop 5) with
      | some tail => some (rest.take 5 ++ tail)
      | none => none
    else none
  else none

/-- re.search: try every starting position left to right, return the
first successful capture. -/
def reSearch (lit : List Char) : List Char → Option (List Char)
  | [] => none
  | c :: rest =>
    match tryAt lit (c :: rest) with
    | some cap => some cap
    | none => reSearch lit rest

/-- Case-sensitive substring test, modelling Python `in` on str
(line 444, `if 'http' in reg.group(1)`). -/
def isSubstr (needle : List Char) : List Char → Bool
  | [] => needle.isEmpty
  | c :: rest => List.isPrefixOf needle (c :: rest) || isSubstr needle rest

/-- os.path.basename: the part of the URL after the last slash
(line 461). -/
def basename (s : String) : String :=
  String.mk ((s.data.reverse.takeWhile (fun c => c ≠ '/')).reverse)

/- ## pathlib modelling (save_to derivation, line 251)

A PyPath is a parent directory plus a final name component.  The
pathlib accessors follow CPython: suffix is the part of the name from
the last dot, provided that dot is neither the first nor the last
character; with_stem keeps the suffix and replaces the rest of the
name; with_suffix replaces the suffix. -/

structure PyPath where
  parent : String
  name : String
deriving DecidableEq, Repr

/-- Index of the last dot of a name (str.rfind of a dot). -/
def rfindDot (cs : List Char) : Option Nat :=
  (List.range cs.length).foldl
    (fun acc j => if cs.getD j ' ' = '.' then some j else acc) none

/-- CPython PurePath.suffix on a name: name.drop i for the last dot
index i when 0 < i < length - 1, else empty. -/
def pySuffix (name : List Char) : List Char :=
  match rfindDot name with
  | some i => if 0 < i ∧ i < name.length - 1 then name.drop i else []
  | none => []

/-- The name with its suffix removed. -/
def stripPySuffix (name : List Char) : List Char :=
  name.take (name.length - (pySuffix name).length)

/-- Path(filename) for a basename: parent is the current directory. -/
def pathOfFilename (f : String) : PyPath := ⟨".", f⟩

/-- PurePath.with_stem: same parent, new stem, old suffix kept. -/
def with_stem (p : PyPath) (stem : String) : PyPath :=
  ⟨p.parent, stem ++ String.mk (pySuffix p.name.data)⟩

/-- PurePath.with_suffix: same parent, old suffix replaced. -/
def with_suffix (p : PyPath) (suf : String) : PyPath :=
  ⟨p.parent, String.mk (stripPySuffix p.name.data) ++ suf⟩

/-- Embeds line 251,
`save_to = Path(filename).with_stem(DOWNLOAD_PATH).with_suffix(".png")`.
The source passes DOWNLOAD_PATH, a Path object, as the stem; it is
modelled here by its string form `dl`. -/
def deriveSaveTo (dl : String) (filename : String) : PyPath :=
  with_suffix (with_stem (pathOfFilename filename) dl) ".png"

/-- The playlist builder enumerates `DOWNLOAD_PATH.glob("*.png")`
(line 349): a path is discoverable iff its parent is the download
directory and its name ends in `.png`. -/
def endsWithL (suf s : List Char) : Bool := List.isPrefixOf suf.reverse s.reverse

/-- Discoverability by the glob on line 349. -/
def globDiscoverable (dl : String) (p : PyPath) : Bool :=
  p.parent == dl && endsWithL ".png".data p.name.data

/- ## Image extraction and acquisition (get_image_info lines 435-464,
get_image lines 237-283)

The network and filesystem are explicit: `Env` supplies the download
directory string, which local files exist, and each URL's declared
content-length; the observable remote accesses are recorded as events. -/

/-- Remote-access events: urllib.urlopen of a URL for its headers
(line 459), and urllib.urlretrieve of a URL to a local path
(lines 273/279). -/
inductive Ev where
  | openUrl (url : String)
  | retrieve (url : String) (dest : PyPath)
deriving DecidableEq, Repr

/-- True only for a retrieve (image download) event. -/
def isRetrieve : Ev → Bool
  | .retrieve _ _ => true
  | _ => false

/-- True when a trace contains no image download. -/
def noRetrieve (t : List Ev) : Bool := t.all (fun e => !(isRetrieve e))

/-- External state the run depends on: DOWNLOAD_PATH (as a string),
which paths exist on disk (os.path.isfile, line 253), and each URL's
declared content-length header (line 462). -/
structure Env where
  dl : String
  fileExists : PyPath → Bool
  contentLength : String → Nat

/-- The triple get_image_info returns (lines 435-464). -/
structure ImgInfo where
  file_url : String
  filename : String
  file_size : Nat
deriving DecidableEq, Repr

/-- Embeds get_image_info (lines 435-464): regex-search the text for
the element's image pattern; on a match, resolve a relative capture
against NASA_APOD_SITE (a capture containing `http` passes through),
open the remote URL for its content-length, and return URL, basename
and size.  On no match, return nothing and touch the network not at
all (lines 450-453). -/
def get_image_info (elem : String) (text : String) (env : Env) :
    Option ImgInfo × List Ev :=
  match reSearch (litFor elem) text.data with
  | none => (none, [])
  | some cap =>
    let capS : String := String.mk cap
    let file_url := if isSubstr "http".data cap then capS else NASA_APOD_SITE ++ capS
    (some ⟨file_url, basename file_url, env.contentLength file_url⟩,
     [Ev.openUrl file_url])

/-- What get_image produces: no image found (a normal empty result),
a saved local path, or a process exit via exit() (line 269). -/
inductive GetImageResult where
  | noImage
  | saved (p : PyPath)
  | exitProcess
deriving DecidableEq, Repr

/-- Embeds get_image (lines 237-283).  Primary extraction with
`a href`; on no match return noImage (line 246).  Derive save_to
(line 251).  If the file does not exist: an undersized primary payload
(< 500 bytes, line 255) triggers the `img src` fallback (line 259) -
no match again returns noImage (line 262), an undersized fallback
calls exit() (line 269), otherwise the (fallback) URL is retrieved to
save_to.  A well-sized primary payload is retrieved directly
(line 279).  If the file already exists the retrieve is skipped and
the existing path returned (lines 280-283). -/
def get_image (text : String) (env : Env) : GetImageResult × List Ev :=
  match get_image_info "a href" text env with
  | (none, ev1) => (.noImage, ev1)
  | (some i1, ev1) =>
    let save_to := deriveSaveTo env.dl i1.filename
    if env.fileExists save_to then
      (.saved save_to, ev1)
    else if i1.file_size < 500 then
      match get_image_info "img src" text env with
      | (none, ev2) => (.noImage, ev1 ++ ev2)
      | (some i2, ev2) =>
        if i2.file_size < 500 then
          (.exitProcess, ev1 ++ ev2)
        else
          (.saved save_to, ev1 ++ ev2 ++ [Ev.retrieve i2.file_url save_to])
    else
      (.saved save_to, ev1 ++ [Ev.retrieve i1.file_url save_to])

/- ## Image processor (resize_image, lines 286-306)

An image file is its decoded dimensions plus abstract raster content.
PIL Image.resize is a parameter `pilResize` giving the resampled
content; by its contract the resized image has exactly the requested
dimensions.  The Bool records whether the file was rewritten. -/

structure ImageFile where
  width : Nat
  height : Nat
  content : List Nat
deriving DecidableEq, Repr

/-- Embeds resize_image (lines 286-306): if the decoded size already
equals the target (line 293) the file is left untouched; otherwise the
image is resized to exactly the target and saved over the same file
(lines 300-306). -/
def resize_image (pilResize : ImageFile → Nat → Nat → List Nat)
    (tX tY : Nat) (img : ImageFile) : ImageFile × Bool :=
  if img.width = tX ∧ img.height = tY then (img, false)
  else (⟨tX, tY, pilResize img tX tY⟩, true)

/- ## Playlist builder (create_desktop_background_scoll, lines 335-432) -/

/-- One static/transition pair emitted per image (lines 396-427). -/
structure PlaylistEntry where
  file : String
  duration : Nat
  transDuration : Nat
  transFrom : String
  transTo : String
deriving DecidableEq, Repr

/-- Placeholder entry for out-of-range getD. -/
def dummyEntry : PlaylistEntry := ⟨"", 0, 0, "", ""⟩

/-- Embeds the entry-emission loop (lines 396-427) applied to the
images in their chosen (shuffled, line 392) order: entry i displays
images[i] for the configured duration, transitions for 5 units from
images[i] to images[i+1], the last entry wrapping to images[0]
(lines 424-427). -/
def buildPlaylist (images : List String) (dur : Nat) : List PlaylistEntry :=
  (List.range images.length).map (fun i =>
    { file := images.getD i ""
      duration := dur
      transDuration := 5
      transFrom := images.getD i ""
      transTo := if i + 1 = images.length then images.getD 0 ""
                 else images.getD (i + 1) "" })

/-- Embeds the seeding while-loop (lines 357-386).  Each list element
is one day's outcome, scanning backward from yesterday: `some f` when
that day's fetch + extraction + resize produced image f (appended,
counter decremented, lines 385-386), `none` when the day was skipped
(fetch failed or no image, lines 373-380: `continue` without touching
the counter).  The loop stops when the counter reaches 0; a finite day
list may also run out. -/
def seedLoop : List (Option String) → Nat → List String → List String
  | _, 0, imgs => imgs
  | [], _ + 1, imgs => imgs
  | none :: ds, left + 1, imgs => seedLoop ds (left + 1) imgs
  | some f :: ds, left + 1, imgs => seedLoop ds left (imgs ++ [f])

/-- Embeds lines 352-386: seeding runs only when the existing image
count is below SEED_IMAGES, and then - as in the source, line 358 -
the counter starts at the full SEED_IMAGES value. -/
def seedImages (existing : List String) (seedTarget : Nat)
    (days : List (Option String)) : List String :=
  if existing.length < seedTarget then seedLoop days seedTarget existing
  else existing

/-- The first n successful days, skipping failures without counting
them. -/
def firstSomes : Nat → List (Option String) → List String
  | 0, _ => []
  | _ + 1, [] => []
  | n + 1, none :: ds => firstSomes (n + 1) ds
  | n + 1, some f :: ds => f :: firstSomes n ds

/-- Number of successful days in a day list. -/
def countSomes : List (Option String) → Nat
  | [] => 0
  | none :: ds => countSomes ds
  | some _ :: ds => countSomes ds + 1

/-- Embeds create_desktop_background_scoll (lines 335-432) at the
level of the playlist data: with IMAGE_SCROLL off the function returns
its argument unchanged and writes nothing (lines 337-338, modelled as
none); otherwise it seeds, takes the images in their shuffled order,
and serialises the emitted entries (the xml file is written
unconditionally, line 430). -/
def create_desktop_background_scoll (imageScroll : Bool) (existing : List String)
    (seedTarget : Nat) (days : List (Option String)) (dur : Nat) :
    Option (List PlaylistEntry) :=
  if imageScroll then some (buildPlaylist (seedImages existing seedTarget days) dur)
  else none

/- ## Top-level flow (lines 467-507) -/

/-- What a whole run did: whether it exited before finishing, whether
the playlist xml was written, and whether the wallpaper-set command
ran. -/
structure RunOutcome where
  exitedEarly : Bool
  playlistWritten : Bool
  wallpaperSet : Bool
deriving DecidableEq, Repr

/-- Embeds the `__main__` block (lines 482-506): fetch the primary
page, exit when the reply equals the marker `error` (lines 484-487);
otherwise extract and save the image; with IMAGE_SCROLL on, build and
write the playlist and set the wallpaper on it (lines 496-505); with
IMAGE_SCROLL off, a missing image exits (lines 499-502) and a saved
one becomes the wallpaper. -/
def mainFlow (fetch : FetchResult) (env : Env) (imageScroll : Bool)
    (existing : List String) (seedTarget : Nat) (days : List (Option String))
    (dur : Nat) : RunOutcome :=
  let reply := download_site fetch
  if isAbortMarker reply then ⟨true, false, false⟩
  else
    match (get_image (replyText reply) env).1 with
    | .exitProcess => ⟨true, false, false⟩
    | r =>
      match create_desktop_background_scoll imageScroll existing seedTarget days dur with
      | some _ => ⟨false, true, true⟩
      | none =>
        match r with
        | .saved _ => ⟨false, false, true⟩
        | _ => ⟨true, false, false⟩

/- ## human_readable_size (lines 328-332)

The running value is modelled as an exact rational; the float
formatting `%3.2f%s` only matters through which unit branch returns,
so the returned string is the decimal value followed by the unit. -/

/-- One unit label per loop iteration. -/
def hrsLoop : List String → ℚ → Option String
  | [], _ => none
  | u :: us, n => if n < 1024 then some (toString n ++ u) else hrsLoop us (n / 1024)

/-- Embeds human_readable_size (lines 328-332): three units, divide by
1024 between iterations, fall off the loop (returning None) when no
unit fits. -/
def human_readable_size (q : ℚ) : Option String :=
  hrsLoop ["bytes", "KB", "MB"] q

/- ## Concrete test inputs used by witnesses and counterexamples -/

/-- A single-quote as a one-character string, for building test HTML. -/
def sqS : String := String.mk [quoteChar]

/-- Test page whose anchor image and inline image both resolve to
undersized payloads under `env5`. -/
def text5 : String :=
  "<a href=" ++ sqS ++ "imageA.jpg" ++ sqS ++ "> and <img src=" ++ sqS ++
    "imageB.jpg" ++ sqS ++ ">"

/-- Environment with no local files and tiny (10-byte) remote payloads. -/
def env5 : Env := ⟨"/tmp/backgrounds", fun _ => false, fun _ => 10⟩

/-- Test page with an anchor image. -/
def text6 : String := "<a href=" ++ sqS ++ "imagex.png" ++ sqS ++ ">"

/-- Environment where every local file exists and payloads are 600 bytes. -/
def env6 : Env := ⟨"/tmp/backgrounds", fun _ => true, fun _ => 600⟩

/-- Test page matching neither image pattern. -/
def text7 : String := "No picture today, only a video!"

/- ## Helper lemmas -/

/-- get_image_info never retrieves a file: its only remote access is
the header-reading urlopen. -/
theorem gii_noRetrieve (elem text : String) (env : Env) :
    noRetrieve (get_image_info elem text env).2 = true := by
  unfold get_image_info
  cases reSearch (litFor elem) text.data <;> simp [noRetrieve, isRetrieve]

/-- noRetrieve distributes over trace concatenation. -/
theorem noRetrieve_append (t1 t2 : List Ev) :
    noRetrieve (t1 ++ t2) = (noRetrieve t1 && noRetrieve t2) := by
  simp [noRetrieve, List.all_append]

/-- The seed loop appends exactly the first `l` successful days. -/
theorem seedLoop_eq_append (ds : List (Option String)) :
    ∀ (l : Nat) (imgs : List String),
      seedLoop ds l imgs = imgs ++ firstSomes l ds := by
  induction ds with
  | nil => intro l imgs; cases l <;> simp [seedLoop, firstSomes]
  | cons d ds ih =>
    intro l imgs
    cases l with
    | zero => simp [seedLoop, firstSomes]
    | succ l =>
      cases d with
      | none => simp [seedLoop, firstSomes, ih]
      | some f => simp [seedLoop, firstSomes, ih]

/-- With at least n successful days available, exactly n are taken. -/
theorem firstSomes_length (ds : List (Option String)) :
    ∀ n, n ≤ countSomes ds → (firstSomes n ds).length = n := by
  induction ds with
  | nil =>
    intro n hn
    have : n = 0 := Nat.le_zero.mp (by simpa [countSomes] using hn)
    simp [this, firstSomes]
  | cons d ds ih =>
    intro n hn
    cases d with
    | none =>
      cases n with
      | zero => simp [firstSomes]
      | succ n => simpa [firstSomes] using ih (n + 1) (by simpa [countSomes] using hn)
    | some f =>
      cases n with
      | zero => simp [firstSomes]
      | succ n =>
        have hn2 : n ≤ countSomes ds := by
          have := hn; simp [countSomes] at this; omega
        simp [firstSomes, ih n hn2]

/- ## Claim theorems -/

/-- C1: For the display output with connected entries 100x100 then
50x50, largest mode returns (50, 50) - the last positive-area entry,
because `largest` is never updated - while the specified behaviour
(greatest area, first occurrence on ties) picks (100, 100).  The
claim, and the source's own comment, are violated by the code. -/
theorem C1_largest_code_bug :
    find_resolution_largest [(100, 100), (50, 50)] (1024, 768) = (50, 50) ∧
    spec_largest_choice [(100, 100), (50, 50)] = some (100, 100) ∧
    ((50, 50) : Nat × Nat) ≠ (100, 100) := by decide

/-- C2: On an HTTP 404 for the primary fetch, download_site returns
the string `Error: 404`, which the caller's `== "error"` check never
matches, so the run does not terminate early: with IMAGE_SCROLL on it
writes the playlist and runs the wallpaper-set command, contradicting
the claim. -/
theorem C2_error_marker_code_bug :
    download_site (.httpError 404) = Reply.str "Error: 404" ∧
    isAbortMarker (download_site (.httpError 404)) = false ∧
    mainFlow (.httpError 404) env5 true [] 10 [] 1200 =
      ⟨false, true, true⟩ := by decide

/-- C3: For every nonempty image list, the emitted playlist has
exactly as many entries as images, entry i transitions to the image at
index (i+1) mod K, and that transition target is a file present in the
image list (closure). -/
theorem C3_playlist_closure (images : List String) (dur : Nat)
    (h : 0 < images.length) :
    (buildPlaylist images dur).length = images.length ∧
    ∀ i, i < images.length →
      ((buildPlaylist images dur).getD i dummyEntry).transTo =
        images.getD ((i + 1) % images.length) "" ∧
      images.getD ((i + 1) % images.length) "" ∈ images := by
  constructor
  · simp [buildPlaylist]
  · intro i hi
    have hmod : (i + 1) % images.length < images.length := Nat.mod_lt _ h
    constructor
    · have hb : (buildPlaylist images dur).getD i dummyEntry =
          { file := images.getD i ""
            duration := dur
            transDuration := 5
            transFrom := images.getD i ""
            transTo := if i + 1 = images.length then images.getD 0 ""
                       else images.getD (i + 1) "" } := by
        simp [buildPlaylist, List.getD, List.getElem?_map, List.getElem?_range, hi]
      rw [hb]
      by_cases hc : i + 1 = images.length
      · simp [hc, Nat.mod_self]
      · have hlt : i + 1 < images.length := lt_of_le_of_ne (Nat.succ_le_of_lt hi) hc
        simp [hc, Nat.mod_eq_of_lt hlt]
    · rw [List.getD_eq_getElem images "" hmod]
      exact List.getElem_mem hmod

/-- C3 witness: the three-image playlist has 3 entries and its last
entry transitions back to the first image. -/
theorem C3_playlist_closure_witness :
    (buildPlaylist ["a", "b", "c"] 1200).length = 3 ∧
    ((buildPlaylist ["a", "b", "c"] 1200).getD 2 dummyEntry).transTo = "a" ∧
    "a" ∈ ["a", "b", "c"] := by
  have H := C3_playlist_closure ["a", "b", "c"] 1200 (by decide)
  refine ⟨H.1, ?_, ?_⟩
  · have h2 := (H.2 2 (by decide)).1
    simpa using h2
  · simp

/-- C4 counterexample: a directory holding 1 image with seed target 2
and two successful days ends with 3 images - the loop downloads the
full SEED_IMAGES count rather than stopping when the total reaches the
target, refuting the claim, which predicts at most 2. -/
theorem C4_seed_counterexample :
    seedImages ["a"] 2 [some "b", some "c"] = ["a", "b", "c"] ∧
    ¬ (seedImages ["a"] 2 [some "b", some "c"]).length ≤ 2 := by decide

/-- C4 amended: when the existing count is below the seed target and
enough successful days are available, the loop downloads exactly
seedTarget additional images (failed days are skipped and do not
count), ending with existing.length + seedTarget images. -/
theorem C4_seed_amended (existing : List String) (seedTarget : Nat)
    (days : List (Option String))
    (h0 : existing.length < seedTarget) (h1 : seedTarget ≤ countSomes days) :
    seedImages existing seedTarget days =
      existing ++ firstSomes seedTarget days ∧
    (seedImages existing seedTarget days).length =
      existing.length + seedTarget := by
  have he : seedImages existing seedTarget days =
      existing ++ firstSomes seedTarget days := by
    simp [seedImages, h0, seedLoop_eq_append]
  refine ⟨he, ?_⟩
  rw [he, List.length_append, firstSomes_length days seedTarget h1]

/-- C4 amended witness: one existing image, seed target 2, days
succeeding, failing, succeeding: the failed day is skipped without
counting and the run ends with 1 + 2 images. -/
theorem C4_seed_amended_witness :
    seedImages ["a"] 2 [some "b", none, some "c"] =
      ["a"] ++ firstSomes 2 [some "b", none, some "c"] ∧
    (seedImages ["a"] 2 [some "b", none, some "c"]).length =
      (["a"] : List String).length + 2 :=
  C4_seed_amended ["a"] 2 [some "b", none, some "c"] (by decide) (by decide)

/-- C5 counterexample: on a page whose anchor image and fallback
inline image both download below 500 bytes (and whose derived file
does not exist), get_image ends in exit() - the whole process
terminates, refuting the claim that this is only an
unrecoverable-for-this-date condition. -/
theorem C5_fallback_counterexample :
    (get_image text5 env5).1 = GetImageResult.exitProcess ∧
    GetImageResult.exitProcess ≠ GetImageResult.noImage := by decide

/-- C5 amended: when the primary payload is under 500 bytes, the
fallback also matches with a payload under 500 bytes, and the derived
file is absent, get_image terminates the whole process via exit() and
writes no file for that date (no retrieve happens). -/
theorem C5_fallback_amended (text : String) (env : Env) (i1 i2 : ImgInfo)
    (h1 : (get_image_info "a href" text env).1 = some i1)
    (hf : env.fileExists (deriveSaveTo env.dl i1.filename) = false)
    (h2 : i1.file_size < 500)
    (h3 : (get_image_info "img src" text env).1 = some i2)
    (h4 : i2.file_size < 500) :
    (get_image text env).1 = GetImageResult.exitProcess ∧
    noRetrieve (get_image text env).2 = true := by
  have n1 := gii_noRetrieve "a href" text env
  have n2 := gii_noRetrieve "img src" text env
  rcases hA : get_image_info "a href" text env with ⟨o1, ev1⟩
  rcases hB : get_image_info "img src" text env with ⟨o2, ev2⟩
  rw [hA] at h1 n1
  rw [hB] at h3 n2
  simp only at h1 h3 n1 n2
  subst h1
  subst h3
  constructor
  · simp [get_image, hA, hf, h2, hB, h4]
  · simp [get_image, hA, hf, h2, hB, h4, noRetrieve_append, n1, n2]

/-- C5 amended witness: the concrete undersized page text5 under env5
exits the process and retrieves nothing. -/
theorem C5_fallback_amended_witness :
    (get_image text5 env5).1 = GetImageResult.exitProcess ∧
    noRetrieve (get_image text5 env5).2 = true :=
  C5_fallback_amended text5 env5
    ⟨NASA_APOD_SITE ++ "imageA.jpg", "imageA.jpg", 10⟩
    ⟨NASA_APOD_SITE ++ "imageB.jpg", "imageB.jpg", 10⟩
    (by decide) (by decide) (by decide) (by decide) (by decide)

/-- C6: whenever the primary extraction succeeds and the derived local
file already exists, get_image returns that existing path and its
trace contains no retrieve: the image payload is never downloaded and
the existing file is reused untouched. -/
theorem C6_existing_file_skips_download (text : String) (env : Env)
    (i1 : ImgInfo)
    (h1 : (get_image_info "a href" text env).1 = some i1)
    (hf : env.fileExists (deriveSaveTo env.dl i1.filename) = true) :
    (get_image text env).1 =
      GetImageResult.saved (deriveSaveTo env.dl i1.filename) ∧
    noRetrieve (get_image text env).2 = true := by
  have n1 := gii_noRetrieve "a href" text env
  rcases hA : get_image_info "a href" text env with ⟨o1, ev1⟩
  rw [hA] at h1 n1
  simp only at h1 n1
  subst h1
  constructor
  · simp [get_image, hA, hf]
  · simp [get_image, hA, hf, n1]

/-- C6 witness: re-running acquisition on text6 when every derived
file exists returns the existing path with no retrieve event. -/
theorem C6_existing_file_skips_download_witness :
    (get_image text6 env6).1 =
      GetImageResult.saved (deriveSaveTo env6.dl "imagex.png") ∧
    noRetrieve (get_image text6 env6).2 = true :=
  C6_existing_file_skips_download text6 env6
    ⟨NASA_APOD_SITE ++ "imagex.png", "imagex.png", 600⟩ (by decide) rfl

/-- C7: an input matching neither the anchor-tag image pattern nor the
inline image-tag pattern makes get_image return the normal empty
result with an empty trace: no download, no remote connection. -/
theorem C7_no_match_returns_none (text : String) (env : Env)
    (h1 : reSearch (litFor "a href") text.data = none)
    (_h2 : reSearch (litFor "img src") text.data = none) :
    get_image text env = (GetImageResult.noImage, []) := by
  simp [get_image, get_image_info, h1]

/-- C7 witness: a video-day page with no image markup yields noImage
and an empty trace. -/
theorem C7_no_match_returns_none_witness :
    get_image text7 env5 = (GetImageResult.noImage, []) :=
  C7_no_match_returns_none text7 env5 (by decide) (by decide)

/-- C8: for any PIL resampling behaviour, the processed file's decoded
dimensions always equal the target, and an image already at the target
dimensions is returned as-is with no write. -/
theorem C8_resize_dimensions (pilResize : ImageFile → Nat → Nat → List Nat)
    (tX tY : Nat) (img : ImageFile) :
    ((resize_image pilResize tX tY img).1.width = tX ∧
     (resize_image pilResize tX tY img).1.height = tY) ∧
    resize_image pilResize tX tY ⟨tX, tY, img.content⟩ =
      (⟨tX, tY, img.content⟩, false) := by
  constructor
  · unfold resize_image
    by_cases h : img.width = tX ∧ img.height = tY
    · simp [h]
    · simp [h]
  · simp [resize_image]

/-- C9: the derived save path for remote basename apod.jpg does end in
.png, but its parent is the current directory rather than the download
directory, so the playlist glob over the download directory never
discovers it - the claimed discoverability fails. -/
theorem C9_save_path_code_bug :
    endsWithL ".png".data
      (deriveSaveTo "/tmp/backgrounds" "apod.jpg").name.data = true ∧
    (deriveSaveTo "/tmp/backgrounds" "apod.jpg").parent = "." ∧
    globDiscoverable "/tmp/backgrounds"
      (deriveSaveTo "/tmp/backgrounds" "apod.jpg") = false := by decide

/-- C10: human_readable_size returns no string exactly when the input
is at least 1024 cubed; every smaller input gets a formatted string. -/
theorem C10_human_readable_size_none_iff (q : ℚ) :
    human_readable_size q = none ↔ (1024 : ℚ) ^ 3 ≤ q := by
  have h0 : (0 : ℚ) < 1024 := by norm_num
  have hcube : ((1024 : ℚ)) ^ 3 = 1073741824 := by norm_num
  simp only [human_readable_size, hrsLoop]
  split_ifs with hc1 hc2 hc3
  · exact iff_of_false (by simp) (by intro h; rw [hcube] at h; linarith)
  · have hq : q < 1024 * 1024 := (div_lt_iff₀ h0).mp hc2
    exact iff_of_false (by simp) (by intro h; rw [hcube] at h; nlinarith)
  · have hq : q / 1024 < 1024 * 1024 := (div_lt_iff₀ h0).mp hc3
    have hq2 : q < 1024 * 1024 * 1024 := by
      have := (div_lt_iff₀ h0).mp hq
      nlinarith
    exact iff_of_false (by simp) (by intro h; rw [hcube] at h; nlinarith)
  · refine iff_of_true rfl ?_
    have t1 : (1024 : ℚ) ≤ q / 1024 / 1024 := le_of_not_lt hc3
    have t2 : (1024 : ℚ) * 1024 ≤ q / 1024 := (le_div_iff₀ h0).mp t1
    have t3 : (1024 : ℚ) * 1024 * 1024 ≤ q := (le_div_iff₀ h0).mp t2
    rw [hcube]
    nlinarith
